import Mathlib

/-!
Verification of the jpeg2k core: the per-component rescale arithmetic and
pixel assembler of `src/j2k_image.rs`, the memory-backed stream adapter of
`src/openjpeg/stream.rs`, and the header-read wrapping order of
`src/openjpeg/codec.rs`, shallowly embedded in Lean.

Machine integers are modelled as `Nat`/`Int` with explicit wraparound
(`% 2^w`) exactly where the Rust code performs an `as` cast or a wrapping
operation; `u64`/`usize` division is `Nat` division (floor), `i64` division
is `Int.tdiv` (truncation toward zero), matching Rust `/`.
-/

set_option autoImplicit false

namespace Jpeg2k

/-! ### Rescale arithmetic (`ImageComponent::data_u8` / `data_u16`)

In the Rust source, for a component of precision `prec`:
* unsigned branch: `old_max = ((1 << prec) - 1) as u64`,
  `NEW_MAX = (1 << T) - 1`, each sample (reinterpreted as `u32`) is mapped by
  `((sample as u64 * NEW_MAX) / old_max) as uT`;
* signed branch: `old_max = (1 << (prec - 1)) as i64`,
  `NEW_MAX = 1 << (T - 1)`, `ADJUST : uT = (NEW_MAX - 1) as uT`, each `i32`
  sample is mapped by `(((sample as i64) * NEW_MAX) / old_max) as uT + ADJUST`
  where the final `+` is a `uT` addition (wrapping in release builds).
-/

/-- The unsigned-branch divisor `((1 << prec) - 1) as u64` from `data_u8`/`data_u16`. -/

def unsigned_old_max (prec : Nat) : Nat := 2 ^ prec - 1

/-- The signed-branch divisor `(1 << (prec - 1)) as i64` from `data_u8`/`data_u16`. -/

def signed_old_max (prec : Nat) : Int := (2 : Int) ^ (prec - 1)

/-- Unsigned sample rescale of `data_u8`: `((sample * 255) / old_max) as u8`. -/

def data_u8_unsigned (prec : Nat) (sample : Nat) : Nat :=
  (sample * 255 / unsigned_old_max prec) % 256

/-- Unsigned sample rescale of `data_u16`: `((sample * 65535) / old_max) as u16`. -/

def data_u16_unsigned (prec : Nat) (sample : Nat) : Nat :=
  (sample * 65535 / unsigned_old_max prec) % 65536

/-- Signed sample rescale of `data_u8`:
`(((sample as i64) * 128) / old_max) as u8 + 127`, with the trailing `u8`
addition taken with release (wrapping mod `2^8`) semantics. -/

def data_u8_signed (prec : Nat) (sample : Int) : Nat :=
  ((Int.tdiv (sample * 128) (signed_old_max prec) % 256).toNat + 127) % 256

/-- Signed sample rescale of `data_u16`:
`(((sample as i64) * 32768) / old_max) as u16 + 32767`, with the trailing `u16`
addition taken with release (wrapping mod `2^16`) semantics. -/

def data_u16_signed (prec : Nat) (sample : Int) : Nat :=
  ((Int.tdiv (sample * 32768) (signed_old_max prec) % 65536).toNat + 32767) % 65536

/-- Reinterpretation of a stored `i32` sample as `u32`
(`self.0.data as *const u32` in the unsigned branch). -/

def i32ToU32 (sample : Int) : Nat := (sample % (2 ^ 32 : Int)).toNat

/-! ### Pixel assembly (`Image::get_pixels` in `src/j2k_image.rs`)

The data model: a component carries its post-reduction width/height, precision,
signed and alpha flags, and its raw `i32` sample array; an image carries its
ordered component list and color space.  `get_pixels` mirrors the Rust source:
it takes width/height from the first component (`UnsupportedComponentsError(0)`
if there is none), rejects color spaces outside
{Unknown, Unspecified, SRGB, Gray}, and then matches on
`(components, has_alpha, max_prec)` exactly as the Rust `match` does.
-/

/-- Color space enum of `lib.rs`. -/

inductive ColorSpace where
  | Unknown
  | Unspecified
  | SRGB
  | Gray
  | SYCC
  | EYCC
  | CMYK
deriving DecidableEq, Repr

/-- The error variants of `error.rs` reachable from the embedded operations. -/

inductive Error where
  | UnsupportedComponentsError (n : Nat)
  | UnsupportedColorSpaceError (cs : ColorSpace)
  | CodecError (msg : String)
  | NullPointerError (msg : String)
deriving DecidableEq, Repr

/-- `ImageFormat` of `j2k_image.rs`. -/

inductive ImageFormat where
  | L8
  | La8
  | Rgb8
  | Rgba8
  | L16
  | La16
  | Rgb16
  | Rgba16
deriving DecidableEq, Repr

/-- `ImagePixelData` of `j2k_image.rs`; byte and word samples are `Nat`. -/

inductive ImagePixelData where
  | L8 (d : List Nat)
  | La8 (d : List Nat)
  | Rgb8 (d : List Nat)
  | Rgba8 (d : List Nat)
  | L16 (d : List Nat)
  | La16 (d : List Nat)
  | Rgb16 (d : List Nat)
  | Rgba16 (d : List Nat)
deriving DecidableEq, Repr

/-- Length of the packed sample buffer. -/

def ImagePixelData.len : ImagePixelData → Nat
  | .L8 d | .La8 d | .Rgb8 d | .Rgba8 d => d.length
  | .L16 d | .La16 d | .Rgb16 d | .Rgba16 d => d.length

/-- `ImageData` of `j2k_image.rs`. -/

structure ImageData where
  width : Nat
  height : Nat
  format : ImageFormat
  data : ImagePixelData
deriving DecidableEq, Repr

/-- One image component (`opj_image_comp_t` as exposed by `ImageComponent`). -/

structure ImageComponent where
  w : Nat
  h : Nat
  prec : Nat
  sgnd : Bool
  alpha : Bool
  data : List Int
deriving DecidableEq, Repr

/-- `ImageComponent::data_u8`: all `w*h` samples rescaled to `u8`; the sample
array is `data` (of length `w*h` for a well-formed image). -/

def ImageComponent.dataU8 (c : ImageComponent) : List Nat :=
  if c.sgnd then c.data.map (data_u8_signed c.prec)
  else c.data.map (fun s => data_u8_unsigned c.prec (i32ToU32 s))

/-- `ImageComponent::data_u16`: all `w*h` samples rescaled to `u16`. -/

def ImageComponent.dataU16 (c : ImageComponent) : List Nat :=
  if c.sgnd then c.data.map (data_u16_signed c.prec)
  else c.data.map (fun s => data_u16_unsigned c.prec (i32ToU32 s))

/-- The color-space admission test of `get_pixels`: the first `match` arm set
`{Unknown, Unspecified, SRGB, Gray}` is admitted, everything else rejected. -/

def csSupported : ColorSpace → Bool
  | .Unknown | .Unspecified | .SRGB | .Gray => true
  | _ => false

/-- `max_prec`: fold of `max` over component precisions, seeded with
`u32::MIN = 0`. -/

def maxPrecC (comps : List ImageComponent) : Nat :=
  comps.foldl (fun m c => max m c.prec) 0

/-- `has_alpha`: `comps.iter().any(|c| c.is_alpha())`. -/

def hasAlphaC (comps : List ImageComponent) : Bool :=
  comps.any (fun c => c.alpha)

/-- The `match (comps, has_alpha, max_prec)` block of `get_pixels`, arm for
arm: shapes of one to four components with their range guards in source order,
and the `_` arm returning `UnsupportedComponentsError(num_components)`. -/

def classify (comps : List ImageComponent) (hasAlpha : Bool) (maxPrec : Nat)
    (alphaDefault : Option Nat) : Except Error (ImageFormat × ImagePixelData) :=
  match comps with
  | [r] =>
    if 1 ≤ maxPrec ∧ maxPrec ≤ 8 then
      match alphaDefault with
      | some alpha => .ok (.La8, .La8 (r.dataU8.flatMap (fun v => [v, alpha % 256])))
      | none => .ok (.L8, .L8 r.dataU8)
    else if 9 ≤ maxPrec ∧ maxPrec ≤ 16 then
      match alphaDefault with
      | some alpha => .ok (.La16, .La16 (r.dataU16.flatMap (fun v => [v, alpha % 65536])))
      | none => .ok (.L16, .L16 r.dataU16)
    else .error (.UnsupportedComponentsError 1)
  | [r, a] =>
    if hasAlpha = true ∧ 1 ≤ maxPrec ∧ maxPrec ≤ 8 then
      .ok (.La8, .La8 ((r.dataU8.zip a.dataU8).flatMap (fun p => [p.1, p.2])))
    else if hasAlpha = true ∧ 9 ≤ maxPrec ∧ maxPrec ≤ 16 then
      .ok (.La16, .La16 ((r.dataU16.zip a.dataU16).flatMap (fun p => [p.1, p.2])))
    else .error (.UnsupportedComponentsError 2)
  | [r, g, b] =>
    if hasAlpha = false ∧ 1 ≤ maxPrec ∧ maxPrec ≤ 8 then
      match alphaDefault with
      | some alpha =>
        .ok (.Rgba8, .Rgba8 ((r.dataU8.zip (g.dataU8.zip b.dataU8)).flatMap
            (fun p => [p.1, p.2.1, p.2.2, alpha % 256])))
      | none =>
        .ok (.Rgb8, .Rgb8 ((r.dataU8.zip (g.dataU8.zip b.dataU8)).flatMap
            (fun p => [p.1, p.2.1, p.2.2])))
    else if hasAlpha = false ∧ 9 ≤ maxPrec ∧ maxPrec ≤ 16 then
      match alphaDefault with
      | some alpha =>
        .ok (.Rgba16, .Rgba16 ((r.dataU16.zip (g.dataU16.zip b.dataU16)).flatMap
            (fun p => [p.1, p.2.1, p.2.2, alpha % 65536])))
      | none =>
        .ok (.Rgb16, .Rgb16 ((r.dataU16.zip (g.dataU16.zip b.dataU16)).flatMap
            (fun p => [p.1, p.2.1, p.2.2])))
    else .error (.UnsupportedComponentsError 3)
  | [r, g, b, a] =>
    if 1 ≤ maxPrec ∧ maxPrec ≤ 8 then
      .ok (.Rgba8, .Rgba8 ((r.dataU8.zip (g.dataU8.zip (b.dataU8.zip a.dataU8))).flatMap
          (fun p => [p.1, p.2.1, p.2.2.1, p.2.2.2])))
    else if 9 ≤ maxPrec ∧ maxPrec ≤ 16 then
      .ok (.Rgba16, .Rgba16 ((r.dataU16.zip (g.dataU16.zip (b.dataU16.zip a.dataU16))).flatMap
          (fun p => [p.1, p.2.1, p.2.2.1, p.2.2.2])))
    else .error (.UnsupportedComponentsError 4)
  | other => .error (.UnsupportedComponentsError other.length)

/-- `Image::get_pixels`: width/height from the first component
(`UnsupportedComponentsError(0)` when absent), then the color-space gate, then
the component `match`. -/

def get_pixels (comps : List ImageComponent) (cs : ColorSpace)
    (alphaDefault : Option Nat) : Except Error ImageData :=
  match comps with
  | [] => .error (.UnsupportedComponentsError 0)
  | c0 :: rest =>
    if csSupported cs = true then
      match classify (c0 :: rest) (hasAlphaC (c0 :: rest)) (maxPrecC (c0 :: rest))
          alphaDefault with
      | .ok fd => .ok ⟨c0.w, c0.h, fd.1, fd.2⟩
      | .error e => .error e
    else .error (.UnsupportedColorSpaceError cs)

/-- Abstract pixel layouts (channel meaning, independent of bit width). -/

inductive PixelLayout where
  | L
  | La
  | Rgb
  | Rgba
deriving DecidableEq, Repr

/-- The layout of a pixel format. -/

def ImageFormat.layout : ImageFormat → PixelLayout
  | .L8 | .L16 => .L
  | .La8 | .La16 => .La
  | .Rgb8 | .Rgb16 => .Rgb
  | .Rgba8 | .Rgba16 => .Rgba

/-- Whether a pixel format has 16-bit channels. -/

def ImageFormat.is16 : ImageFormat → Bool
  | .L16 | .La16 | .Rgb16 | .Rgba16 => true
  | .L8 | .La8 | .Rgb8 | .Rgba8 => false

/-- Whether an error is the `UnsupportedComponentsError` variant. -/

def Error.isUnsupportedComponents : Error → Bool
  | .UnsupportedComponentsError _ => true
  | _ => false

/-- A 1x1, 8-bit, non-alpha test component. -/

def cexComp : ImageComponent := ⟨1, 1, 8, false, false, [0]⟩

/-- A 2x1, 9-bit test component. -/

def c8r : ImageComponent := ⟨2, 1, 9, false, false, [0, 0]⟩

/-- A 1x1, 8-bit test component. -/

def c8g : ImageComponent := ⟨1, 1, 8, false, false, [0]⟩

/-- A 1x1, 9-bit test component. -/

def c9c : ImageComponent := ⟨1, 1, 9, false, false, [0]⟩

/-! ### Stream adapter (`WrappedSlice` and its callbacks in
`src/openjpeg/stream.rs`)

The cursor and lengths are `usize` values; `saturating_add` and the
`i64`/`usize` casts in the callbacks are modelled explicitly.  Bytes are `Nat`.
-/

/-- `usize::MAX` on a 64-bit target. -/

def USIZE_MAX : Nat := 2 ^ 64 - 1

/-- `usize::saturating_add`. -/

def satAdd (a b : Nat) : Nat := min (a + b) USIZE_MAX

/-- `as usize` applied to an `i64` value (two's-complement reinterpretation). -/

def i64ToUsize (n : Int) : Nat := (n % (2 ^ 64 : Int)).toNat

/-- `as i64` applied to a `usize` value. -/

def usizeToI64 (n : Nat) : Int :=
  if n < 2 ^ 63 then (n : Int) else (n : Int) - 2 ^ 64

/-- `WrappedSlice`: cursor offset plus the borrowed source buffer. -/

structure WrappedSlice where
  offset : Nat
  buf : List Nat
deriving DecidableEq, Repr

/-- `WrappedSlice::remaining`. -/

def WrappedSlice.remaining (s : WrappedSlice) : Nat := s.buf.length - s.offset

/-- `WrappedSlice::seek`: clamp the new offset to the buffer length, return the
new offset. -/

def WrappedSlice.seek (s : WrappedSlice) (newOffset : Nat) : WrappedSlice × Nat :=
  let o := min s.buf.length newOffset
  (⟨o, s.buf⟩, o)

/-- `WrappedSlice::consume`: saturating add, then clamp to the buffer length,
return the new offset. -/

def WrappedSlice.consume (s : WrappedSlice) (nBytes : Nat) : WrappedSlice × Nat :=
  let o := min s.buf.length (satAdd s.offset nBytes)
  (⟨o, s.buf⟩, o)

/-- `WrappedSlice::read_into`: returns the new state, the new contents of the
output buffer, and the number of bytes read.  The
`copy_from_slice(&self.buf[offset..end_off])` writes the `n_read` source bytes
starting at the cursor over the first `n_read` output bytes (`end_off - offset`
equals `n_read` whenever the cursor is within the buffer). -/

def WrappedSlice.read_into (s : WrappedSlice) (out : List Nat) :
    WrappedSlice × List Nat × Nat :=
  let rem := s.remaining
  if rem = 0 then (s, out, 0)
  else
    let nRead := min rem out.length
    let offset := s.offset
    let c := s.consume nRead
    (c.1, (s.buf.drop offset).take nRead ++ out.drop nRead, nRead)

/-- `buf_read_stream_read_fn`: zero requested bytes is a no-op returning 0 (a
null output pointer likewise returns 0); otherwise delegate to `read_into`.
The requested byte count is the length of the output buffer. -/

def buf_read_stream_read_fn (s : WrappedSlice) (out : List Nat) :
    WrappedSlice × List Nat × Nat :=
  if out.length = 0 then (s, out, 0) else s.read_into out

/-- `buf_read_stream_skip_fn`: `consume(nb_bytes as usize)`, returning the new
offset `as i64`. -/

def buf_read_stream_skip_fn (s : WrappedSlice) (nbBytes : Int) :
    WrappedSlice × Int :=
  let c := s.consume (i64ToUsize nbBytes)
  (c.1, usizeToI64 c.2)

/-- `buf_read_stream_seek_fn`: `seek(nb_bytes as usize)`, returning whether the
exact requested offset was reached. -/

def buf_read_stream_seek_fn (s : WrappedSlice) (nbBytes : Int) :
    WrappedSlice × Bool :=
  let seekOffset := i64ToUsize nbBytes
  let r := s.seek seekOffset
  (r.1, seekOffset == r.2)

/-- One driver-visible stream operation; a read is determined (for the cursor)
by the requested byte count. -/

inductive StreamOp where
  | read (outLen : Nat)
  | skip (nbBytes : Int)
  | seek (nbBytes : Int)

/-- State effect of one callback invocation. -/

def applyOp (s : WrappedSlice) : StreamOp → WrappedSlice
  | .read outLen => (buf_read_stream_read_fn s (List.replicate outLen 0)).1
  | .skip n => (buf_read_stream_skip_fn s n).1
  | .seek n => (buf_read_stream_seek_fn s n).1

/-- Run a sequence of callbacks from the initial state (cursor 0, as built by
`Stream::from_bytes`). -/

def runOps (buf : List Nat) (ops : List StreamOp) : WrappedSlice :=
  ops.foldl applyOp ⟨0, buf⟩

/-! ### Header read (`Decoder::read_header` in `src/openjpeg/codec.rs`)

`read_header` is a function of the foreign call's outcome: the status code
`res` returned by `opj_read_header` and the image pointer it stored (possibly
null).  The Rust code wraps the pointer in the owning `Image` first
(`Image::new(img)?`) and only then inspects `res`; `wrapperCreated` records
whether an owning wrapper (whose destructor releases the foreign resource)
exists for the returned pointer.
-/

/-- An opaque non-null foreign `opj_image_t` handle. -/

structure ForeignImage where
  id : Nat
deriving DecidableEq, Repr

/-- `Image::new`: fails with `NullPointerError` on a null pointer, otherwise
takes ownership. -/

def image_new (ptr : Option ForeignImage) : Except Error ForeignImage :=
  match ptr with
  | none => .error (.NullPointerError "Image: NULL opj_image_t")
  | some p => .ok p

/-- Outcome of `Decoder::read_header`: the returned `Result` plus whether an
owning wrapper was constructed for the foreign pointer. -/

structure HeaderOutcome where
  result : Except Error ForeignImage
  wrapperCreated : Bool
deriving Repr

/-- `Decoder::read_header`, line for line: wrap the pointer first
(`let img = Image::new(img)?`), then check the status code. -/

def read_header (res : Int) (ptr : Option ForeignImage) : HeaderOutcome :=
  match image_new ptr with
  | .error e => ⟨.error e, false⟩
  | .ok img =>
    ⟨if res = 1 then .ok img
      else .error (.CodecError "Failed to read header"), true⟩

theorem two_pow_pred_pos (p : Nat) (hp : 1 ≤ p) : 0 < 2 ^ p - 1 := by
  have h2 : 2 ^ 1 ≤ 2 ^ p := Nat.pow_le_pow_right (by norm_num) hp
  simp only [pow_one] at h2
  omega

/-- C3: for every unsigned component precision p in [1,16] and both target
widths T=8 and T=16, the unsigned rescale computes
`out = floor(sample * (2^T - 1) / (2^p - 1))` for every in-range sample, and
in particular rescale(0) = 0 and rescale(2^p - 1) = 2^T - 1. -/

theorem c3_unsigned_rescale_floor (p s : Nat) (hp : 1 ≤ p) (hp16le : p ≤ 16)
    (hs : s ≤ 2 ^ p - 1) :
    data_u8_unsigned p s = s * (2 ^ 8 - 1) / (2 ^ p - 1)
    ∧ data_u16_unsigned p s = s * (2 ^ 16 - 1) / (2 ^ p - 1)
    ∧ data_u8_unsigned p 0 = 0
    ∧ data_u16_unsigned p 0 = 0
    ∧ data_u8_unsigned p (2 ^ p - 1) = 2 ^ 8 - 1
    ∧ data_u16_unsigned p (2 ^ p - 1) = 2 ^ 16 - 1 := by
  have hpos : 0 < 2 ^ p - 1 := two_pow_pred_pos p hp
  have hmax8 : (2 ^ p - 1) * 255 / (2 ^ p - 1) = 255 :=
    Nat.mul_div_cancel_left 255 hpos
  have hmax16 : (2 ^ p - 1) * 65535 / (2 ^ p - 1) = 65535 :=
    Nat.mul_div_cancel_left 65535 hpos
  have hb8 : s * 255 / (2 ^ p - 1) ≤ 255 := by
    calc s * 255 / (2 ^ p - 1) ≤ (2 ^ p - 1) * 255 / (2 ^ p - 1) :=
          Nat.div_le_div_right (Nat.mul_le_mul_right 255 hs)
      _ = 255 := hmax8
  have hb16 : s * 65535 / (2 ^ p - 1) ≤ 65535 := by
    calc s * 65535 / (2 ^ p - 1) ≤ (2 ^ p - 1) * 65535 / (2 ^ p - 1) :=
          Nat.div_le_div_right (Nat.mul_le_mul_right 65535 hs)
      _ = 65535 := hmax16
  refine ⟨?_, ?_, ?_, ?_, ?_, ?_⟩
  · show s * 255 / (2 ^ p - 1) % 256 = s * (2 ^ 8 - 1) / (2 ^ p - 1)
    rw [Nat.mod_eq_of_lt (by omega)]
    norm_num
  · show s * 65535 / (2 ^ p - 1) % 65536 = s * (2 ^ 16 - 1) / (2 ^ p - 1)
    rw [Nat.mod_eq_of_lt (by omega)]
    norm_num
  · show 0 * 255 / (2 ^ p - 1) % 256 = 0
    simp
  · show 0 * 65535 / (2 ^ p - 1) % 65536 = 0
    simp
  · show (2 ^ p - 1) * 255 / (2 ^ p - 1) % 256 = 2 ^ 8 - 1
    rw [hmax8]; decide
  · show (2 ^ p - 1) * 65535 / (2 ^ p - 1) % 65536 = 2 ^ 16 - 1
    rw [hmax16]; decide

/-- Witness for C3 at precision 8, sample 100. -/

theorem c3_unsigned_rescale_floor_witness :
    data_u8_unsigned 8 100 = 100 * (2 ^ 8 - 1) / (2 ^ 8 - 1)
    ∧ data_u16_unsigned 8 100 = 100 * (2 ^ 16 - 1) / (2 ^ 8 - 1)
    ∧ data_u8_unsigned 8 0 = 0
    ∧ data_u16_unsigned 8 0 = 0
    ∧ data_u8_unsigned 8 (2 ^ 8 - 1) = 2 ^ 8 - 1
    ∧ data_u16_unsigned 8 (2 ^ 8 - 1) = 2 ^ 16 - 1 :=
  c3_unsigned_rescale_floor 8 100 (by norm_num) (by norm_num) (by norm_num)

/-- C10: for every precision of at least 1, the divisors used by the rescale
functions (`2^p - 1` unsigned, `2^(p-1)` signed) are strictly positive, so the
per-sample division is well-defined; precision 0 would make the unsigned
divisor zero. -/

theorem c10_divisors_positive (p : Nat) (hp : 1 ≤ p) :
    0 < unsigned_old_max p ∧ 0 < signed_old_max p ∧ unsigned_old_max 0 = 0 := by
  refine ⟨two_pow_pred_pos p hp, ?_, by decide⟩
  exact pow_pos (by norm_num) (p - 1)

/-- Witness for C10 at precision 1. -/

theorem c10_divisors_positive_witness :
    0 < unsigned_old_max 1 ∧ 0 < signed_old_max 1 ∧ unsigned_old_max 0 = 0 :=
  c10_divisors_positive 1 (by norm_num)

/-- C1 (failing input): at signed precision 8 with target width 8, the rescale
maps sample -128 to 255 and sample -127 to 0, so the map sends the source
minimum above the image of every other sample and is not monotonic
non-decreasing; the same slip appears at precision 16 with target width 16. -/

theorem c1_signed_rescale_min_wraps :
    data_u8_signed 8 (-128) = 255
    ∧ data_u8_signed 8 (-127) = 0
    ∧ data_u8_signed 8 0 = 127
    ∧ data_u16_signed 16 (-32768) = 65535
    ∧ data_u16_signed 16 (-32767) = 0 := by
  refine ⟨?_, ?_, ?_, ?_, ?_⟩ <;> decide

theorem dataU8_length (c : ImageComponent) : c.dataU8.length = c.data.length := by
  unfold ImageComponent.dataU8
  split <;> simp

theorem dataU16_length (c : ImageComponent) : c.dataU16.length = c.data.length := by
  unfold ImageComponent.dataU16
  split <;> simp

theorem length_flatMap_const {α β : Type} (l : List α) (f : α → List β) (k : Nat)
    (hf : ∀ x, (f x).length = k) : (l.flatMap f).length = k * l.length := by
  induction l with
  | nil => simp
  | cons x t ih =>
    simp only [List.flatMap_cons, List.length_append, hf, ih, List.length_cons]
    ring

/-- Every `.ok` result of the component `match`: the component count is 1 to 4,
the layout is fixed by (count, alpha flag, caller alpha), and the bit width is
fixed by the precision-range guard that admitted the arm. -/

theorem classify_ok_cases (comps : List ImageComponent) (ha : Bool) (mp : Nat)
    (ad : Option Nat) (fmt : ImageFormat) (d : ImagePixelData)
    (h : classify comps ha mp ad = .ok (fmt, d)) :
    ((comps.length = 1
        ∧ fmt.layout = (if ad.isSome then PixelLayout.La else PixelLayout.L))
      ∨ (comps.length = 2 ∧ ha = true ∧ fmt.layout = PixelLayout.La)
      ∨ (comps.length = 3 ∧ ha = false
        ∧ fmt.layout = (if ad.isSome then PixelLayout.Rgba else PixelLayout.Rgb))
      ∨ (comps.length = 4 ∧ fmt.layout = PixelLayout.Rgba))
    ∧ ((1 ≤ mp ∧ mp ≤ 8 ∧ fmt.is16 = false)
      ∨ (9 ≤ mp ∧ mp ≤ 16 ∧ fmt.is16 = true)) := by
  rcases comps with _ | ⟨r, _ | ⟨a2, _ | ⟨b2, _ | ⟨c2, _ | ⟨e2, t⟩⟩⟩⟩⟩ <;>
      cases ad <;>
      simp only [classify] at h <;>
      (try split_ifs at h with h1 h2) <;>
      first
        | (simp only [Except.ok.injEq, Prod.mk.injEq] at h
           obtain ⟨hf, hd⟩ := h
           subst hf
           simp_all [ImageFormat.layout, ImageFormat.is16])
        | simp_all

/-- Every `.error` result of the component `match` is
`UnsupportedComponentsError`. -/

theorem classify_err_unsupported (comps : List ImageComponent) (ha : Bool)
    (mp : Nat) (ad : Option Nat) (e : Error)
    (h : classify comps ha mp ad = .error e) :
    e.isUnsupportedComponents = true := by
  rcases comps with _ | ⟨r, _ | ⟨a2, _ | ⟨b2, _ | ⟨c2, _ | ⟨e2, t⟩⟩⟩⟩⟩ <;>
      cases ad <;>
      simp only [classify] at h <;>
      (try split_ifs at h with h1 h2) <;>
      first
        | (simp only [Except.error.injEq] at h
           subst h
           rfl)
        | simp_all

/-- Five or more components always hit the `_` arm. -/

theorem classify_big_err (comps : List ImageComponent) (ha : Bool) (mp : Nat)
    (ad : Option Nat) (h5 : 5 ≤ comps.length) :
    classify comps ha mp ad = .error (.UnsupportedComponentsError comps.length) := by
  rcases comps with _ | ⟨r, _ | ⟨a2, _ | ⟨b2, _ | ⟨c2, _ | ⟨e2, t⟩⟩⟩⟩⟩ <;>
    simp_all [classify]

/-- C2 (counterexample): a five-component image with the SYCC color space is
rejected with `UnsupportedColorSpaceError`, not `UnsupportedComponentsError`
as the claim states for every other component count. -/

theorem c2_counterexample_colorspace_precedence :
    get_pixels (List.replicate 5 cexComp) ColorSpace.SYCC none
      = .error (.UnsupportedColorSpaceError ColorSpace.SYCC)
    ∧ Error.isUnsupportedComponents (.UnsupportedColorSpaceError ColorSpace.SYCC)
      = false :=
  ⟨rfl, rfl⟩

/-- C2 (amended): for every image accepted by `get_pixels`, the layout is
chosen by (component count, alpha flag, caller alpha) as the claim states; and
every other component count yields `UnsupportedComponentsError` provided the
color space is one of the four accepted ones (an unsupported color space is
rejected first, except for a component-less image). -/

theorem c2_layout_classification :
    (∀ (comps : List ImageComponent) (cs : ColorSpace) (ad : Option Nat)
        (img : ImageData),
      get_pixels comps cs ad = .ok img →
        ((comps.length = 1
            ∧ img.format.layout = (if ad.isSome then PixelLayout.La else PixelLayout.L))
          ∨ (comps.length = 2 ∧ hasAlphaC comps = true
            ∧ img.format.layout = PixelLayout.La)
          ∨ (comps.length = 3 ∧ hasAlphaC comps = false
            ∧ img.format.layout = (if ad.isSome then PixelLayout.Rgba else PixelLayout.Rgb))
          ∨ (comps.length = 4 ∧ img.format.layout = PixelLayout.Rgba)))
    ∧ (∀ (comps : List ImageComponent) (cs : ColorSpace) (ad : Option Nat),
        csSupported cs = true → (comps.length = 0 ∨ 5 ≤ comps.length) →
        get_pixels comps cs ad
          = .error (.UnsupportedComponentsError comps.length)) := by
  constructor
  · intro comps cs ad img h
    rcases comps with _ | ⟨c0, rest⟩
    · simp [get_pixels] at h
    · simp only [get_pixels] at h
      split_ifs at h with hcs
      rcases hcl : classify (c0 :: rest) (hasAlphaC (c0 :: rest))
          (maxPrecC (c0 :: rest)) ad with e | fd
      · rw [hcl] at h
        simp at h
      · rw [hcl] at h
        simp only [Except.ok.injEq] at h
        obtain ⟨fmt, d⟩ := fd
        have hcase := (classify_ok_cases _ _ _ _ _ _ hcl).1
        have hfmt : img.format = fmt := by rw [← h]
        rw [hfmt]
        exact hcase
  · intro comps cs ad hcs hlen
    rcases comps with _ | ⟨c0, rest⟩
    · rfl
    · rcases hlen with h0 | h5
      · simp at h0
      · simp only [get_pixels, hcs, if_true]
        rw [classify_big_err _ _ _ _ h5]

/-- Witness for C2: a five-component image under the accepted SRGB color space
fails with `UnsupportedComponentsError(5)`. -/

theorem c2_layout_classification_witness :
    get_pixels (List.replicate 5 cexComp) ColorSpace.SRGB none
      = .error (.UnsupportedComponentsError (List.replicate 5 cexComp).length) :=
  c2_layout_classification.2 (List.replicate 5 cexComp) ColorSpace.SRGB none rfl
    (Or.inr (by simp))

/-- C7 (counterexample): a component-less SYCC image is rejected with
`UnsupportedComponentsError(0)`, not with `UnsupportedColorSpaceError` as the
claim states regardless of component count. -/

theorem c7_counterexample_empty_components :
    get_pixels [] ColorSpace.SYCC none = .error (.UnsupportedComponentsError 0)
    ∧ Error.UnsupportedComponentsError 0
      ≠ Error.UnsupportedColorSpaceError ColorSpace.SYCC :=
  ⟨rfl, by decide⟩

/-- C7 (amended): every image with at least one component whose color space is
SYCC, EYCC or CMYK is rejected with `UnsupportedColorSpaceError` carrying that
color space, regardless of component count or precision; a component-less image
fails earlier with `UnsupportedComponentsError(0)`; for the four accepted color
spaces `get_pixels` never returns `UnsupportedColorSpaceError`. -/

theorem c7_colorspace_rejection :
    (∀ (comps : List ImageComponent) (cs : ColorSpace) (ad : Option Nat),
        comps ≠ [] → (cs = .SYCC ∨ cs = .EYCC ∨ cs = .CMYK) →
        get_pixels comps cs ad = .error (.UnsupportedColorSpaceError cs))
    ∧ (∀ (cs : ColorSpace) (ad : Option Nat),
        get_pixels [] cs ad = .error (.UnsupportedComponentsError 0))
    ∧ (∀ (comps : List ImageComponent) (cs cs2 : ColorSpace) (ad : Option Nat),
        (cs = .Unknown ∨ cs = .Unspecified ∨ cs = .SRGB ∨ cs = .Gray) →
        get_pixels comps cs ad ≠ .error (.UnsupportedColorSpaceError cs2)) := by
  refine ⟨?_, ?_, ?_⟩
  · intro comps cs ad hne hcs
    rcases comps with _ | ⟨c0, rest⟩
    · exact absurd rfl hne
    · have hfalse : csSupported cs = false := by
        rcases hcs with rfl | rfl | rfl <;> rfl
      simp [get_pixels, hfalse]
  · intro cs ad
    rfl
  · intro comps cs cs2 ad hcs h
    have htrue : csSupported cs = true := by
      rcases hcs with rfl | rfl | rfl | rfl <;> rfl
    rcases comps with _ | ⟨c0, rest⟩
    · simp [get_pixels] at h
    · simp only [get_pixels, htrue, if_true] at h
      rcases hcl : classify (c0 :: rest) (hasAlphaC (c0 :: rest))
          (maxPrecC (c0 :: rest)) ad with e | fd
      · rw [hcl] at h
        simp only [Except.error.injEq] at h
        have := classify_err_unsupported _ _ _ _ _ hcl
        rw [h] at this
        simp [Error.isUnsupportedComponents] at this
      · rw [hcl] at h
        simp at h

/-- Witness for C7: a one-component SYCC image is rejected with
`UnsupportedColorSpaceError(SYCC)`. -/

theorem c7_colorspace_rejection_witness :
    get_pixels [cexComp] ColorSpace.SYCC none
      = .error (.UnsupportedColorSpaceError ColorSpace.SYCC) :=
  c7_colorspace_rejection.1 [cexComp] ColorSpace.SYCC none (by simp) (Or.inl rfl)

/-- C8 (counterexample): a 4-component image whose first component is 2x1 with
precision 9 while the others are 1x1 is accepted and yields the 16-bit RGBA
layout, but its packed buffer holds 4 samples, not
`4 * width * height = 8` as the claim states: the interleaving `zip` stops at
the shortest component. -/

theorem c8_counterexample_mismatched_dims :
    get_pixels [c8r, c8g, c8g, c8g] ColorSpace.Unknown none
      = .ok ⟨2, 1, ImageFormat.Rgba16, ImagePixelData.Rgba16 [0, 0, 0, 0]⟩
    ∧ (ImagePixelData.Rgba16 [0, 0, 0, 0]).len = 4
    ∧ 8 < c8r.prec
    ∧ 4 ≠ 4 * (2 * 1) :=
  ⟨rfl, rfl, by decide, by decide⟩

/-- C8 (amended): for every image accepted by `get_pixels` the output channel
width is chosen from the maximum precision (1-8 gives 8-bit formats, 9-16
gives 16-bit formats); a 4-component image with maximum precision above 8
yields the 16-bit RGBA layout whose packed buffer holds `4 * m` 16-bit
samples, where `m` is the minimum of `w*h` over the four components (equal to
`width * height` when all components share the first one's dimensions). -/

theorem c8_bitwidth_selection :
    (∀ (comps : List ImageComponent) (cs : ColorSpace) (ad : Option Nat)
        (img : ImageData),
      get_pixels comps cs ad = .ok img →
        ((1 ≤ maxPrecC comps ∧ maxPrecC comps ≤ 8 ∧ img.format.is16 = false)
          ∨ (9 ≤ maxPrecC comps ∧ maxPrecC comps ≤ 16 ∧ img.format.is16 = true)))
    ∧ (∀ (c1 c2 c3 c4 : ImageComponent) (cs : ColorSpace) (ad : Option Nat)
        (img : ImageData),
        c1.data.length = c1.w * c1.h → c2.data.length = c2.w * c2.h →
        c3.data.length = c3.w * c3.h → c4.data.length = c4.w * c4.h →
        8 < maxPrecC [c1, c2, c3, c4] →
        get_pixels [c1, c2, c3, c4] cs ad = .ok img →
        img.format = ImageFormat.Rgba16
          ∧ img.data.len
            = 4 * min (c1.w * c1.h)
                (min (c2.w * c2.h) (min (c3.w * c3.h) (c4.w * c4.h)))) := by
  constructor
  · intro comps cs ad img h
    rcases comps with _ | ⟨c0, rest⟩
    · simp [get_pixels] at h
    · simp only [get_pixels] at h
      split_ifs at h with hcs
      rcases hcl : classify (c0 :: rest) (hasAlphaC (c0 :: rest))
          (maxPrecC (c0 :: rest)) ad with e | fd
      · rw [hcl] at h
        simp at h
      · rw [hcl] at h
        simp only [Except.ok.injEq] at h
        obtain ⟨fmt, d⟩ := fd
        have hcase := (classify_ok_cases _ _ _ _ _ _ hcl).2
        have hfmt : img.format = fmt := by rw [← h]
        rw [hfmt]
        exact hcase
  · intro c1 c2 c3 c4 cs ad img h1 h2 h3 h4 hprec h
    simp only [get_pixels] at h
    split_ifs at h with hcs
    rcases hcl : classify [c1, c2, c3, c4] (hasAlphaC [c1, c2, c3, c4])
        (maxPrecC [c1, c2, c3, c4]) ad with e | fd
    · rw [hcl] at h
      simp at h
    · rw [hcl] at h
      simp only [Except.ok.injEq] at h
      simp only [classify] at hcl
      split_ifs at hcl with hg1 hg2
      · omega
      · simp only [Except.ok.injEq] at hcl
        have hfmt : img.format = ImageFormat.Rgba16 := by
          rw [← h, ← hcl]
        have hdata : img.data
            = ImagePixelData.Rgba16
                ((c1.dataU16.zip (c2.dataU16.zip (c3.dataU16.zip c4.dataU16))).flatMap
                  (fun p => [p.1, p.2.1, p.2.2.1, p.2.2.2])) := by
          rw [← h, ← hcl]
        refine ⟨hfmt, ?_⟩
        rw [hdata]
        show ((c1.dataU16.zip (c2.dataU16.zip (c3.dataU16.zip c4.dataU16))).flatMap
            (fun p => [p.1, p.2.1, p.2.2.1, p.2.2.2])).length = _
        rw [length_flatMap_const
            (c1.dataU16.zip (c2.dataU16.zip (c3.dataU16.zip c4.dataU16)))
            (fun p => [p.1, p.2.1, p.2.2.1, p.2.2.2]) 4 (fun x => rfl)]
        simp only [List.length_zip, dataU16_length, h1, h2, h3, h4]

/-- Witness for C8: four 1x1 components of precision 9 give the Rgba16 format
and a packed buffer of `4 * 1` samples. -/

theorem c8_bitwidth_selection_witness :
    (⟨1, 1, ImageFormat.Rgba16, ImagePixelData.Rgba16 [0, 0, 0, 0]⟩ : ImageData).format
      = ImageFormat.Rgba16
    ∧ (⟨1, 1, ImageFormat.Rgba16, ImagePixelData.Rgba16 [0, 0, 0, 0]⟩ : ImageData).data.len
      = 4 * min (c9c.w * c9c.h)
          (min (c9c.w * c9c.h) (min (c9c.w * c9c.h) (c9c.w * c9c.h))) :=
  c8_bitwidth_selection.2 c9c c9c c9c c9c ColorSpace.Unknown none
    ⟨1, 1, ImageFormat.Rgba16, ImagePixelData.Rgba16 [0, 0, 0, 0]⟩
    rfl rfl rfl rfl (by decide) rfl

theorem applyOp_buf (s : WrappedSlice) (op : StreamOp) :
    (applyOp s op).buf = s.buf := by
  rcases op with outLen | nb | nb
  · show (buf_read_stream_read_fn s (List.replicate outLen 0)).1.buf = s.buf
    simp only [buf_read_stream_read_fn, WrappedSlice.read_into,
      WrappedSlice.consume]
    split_ifs <;> rfl
  · show (buf_read_stream_skip_fn s nb).1.buf = s.buf
    rfl
  · show (buf_read_stream_seek_fn s nb).1.buf = s.buf
    rfl

theorem applyOp_offset_le (s : WrappedSlice) (op : StreamOp)
    (h : s.offset ≤ s.buf.length) : (applyOp s op).offset ≤ s.buf.length := by
  rcases op with outLen | nb | nb
  · show (buf_read_stream_read_fn s (List.replicate outLen 0)).1.offset ≤ _
    simp only [buf_read_stream_read_fn, WrappedSlice.read_into,
      WrappedSlice.consume]
    split_ifs with h1 h2
    · exact h
    · exact h
    · exact Nat.min_le_left _ _
  · show (buf_read_stream_skip_fn s nb).1.offset ≤ _
    unfold buf_read_stream_skip_fn WrappedSlice.consume
    simp
  · show (buf_read_stream_seek_fn s nb).1.offset ≤ _
    unfold buf_read_stream_seek_fn WrappedSlice.seek
    simp

theorem runOps_invariant (ops : List StreamOp) :
    ∀ (s : WrappedSlice), s.offset ≤ s.buf.length →
      (ops.foldl applyOp s).offset ≤ (ops.foldl applyOp s).buf.length
      ∧ (ops.foldl applyOp s).buf = s.buf := by
  induction ops with
  | nil => exact fun s hs => ⟨hs, rfl⟩
  | cons op t ih =>
    intro s hs
    have h1 := applyOp_offset_le s op hs
    have h2 := applyOp_buf s op
    have h3 := ih (applyOp s op) (by rw [h2]; exact h1)
    exact ⟨h3.1, h3.2.trans h2⟩

/-- C4: after any finite sequence of read, skip and seek callbacks starting
from cursor 0, the cursor offset is at most the source buffer's length. -/

theorem c4_cursor_in_bounds (buf : List Nat) (ops : List StreamOp) :
    (runOps buf ops).offset ≤ buf.length := by
  have h := runOps_invariant ops ⟨0, buf⟩ (by simp)
  have h1 : (runOps buf ops).offset ≤ (runOps buf ops).buf.length := h.1
  have h2 : (runOps buf ops).buf = buf := h.2
  rw [h2] at h1
  exact h1

theorem consume_exact (s : WrappedSlice) (n : Nat)
    (h : s.offset + n ≤ s.buf.length) (hlen : s.buf.length ≤ USIZE_MAX) :
    s.consume n = (⟨s.offset + n, s.buf⟩, s.offset + n) := by
  unfold WrappedSlice.consume satAdd
  have h1 : s.offset + n ≤ USIZE_MAX := le_trans h hlen
  rw [Nat.min_eq_left h1, Nat.min_eq_right h]

/-- C5: `read` copies exactly `min(n, remaining)` bytes from the cursor into
the output buffer, advances the cursor by that count, never touches a source
byte past the buffer bound, leaves the rest of the output buffer unmodified,
and is a no-op returning 0 at end-of-data or for a zero-length request. -/

theorem c5_read_contract (s : WrappedSlice) (out : List Nat)
    (hinv : s.offset ≤ s.buf.length) (hlen : s.buf.length < 2 ^ 63)
    (s2 : WrappedSlice) (out2 : List Nat) (n : Nat)
    (hr : buf_read_stream_read_fn s out = (s2, out2, n)) :
    n = min out.length (s.buf.length - s.offset)
    ∧ s2.offset = s.offset + n
    ∧ s2.buf = s.buf
    ∧ s.offset + n ≤ s.buf.length
    ∧ (∀ i, i < n → out2[i]? = s.buf[s.offset + i]?)
    ∧ (∀ i, n ≤ i → out2[i]? = out[i]?)
    ∧ (s.buf.length ≤ s.offset → (s2, out2, n) = (s, out, 0))
    ∧ (out.length = 0 → (s2, out2, n) = (s, out, 0)) := by
  have hmax : s.buf.length ≤ USIZE_MAX := by
    have h63 : (2 : Nat) ^ 63 ≤ 2 ^ 64 - 1 := by norm_num
    unfold USIZE_MAX
    omega
  unfold buf_read_stream_read_fn at hr
  by_cases hout : out.length = 0
  · rw [if_pos hout] at hr
    simp only [Prod.mk.injEq] at hr
    obtain ⟨rfl, rfl, rfl⟩ := hr
    refine ⟨by rw [hout]; simp, by simp, rfl, by omega, ?_, ?_, fun _ => rfl,
      fun _ => rfl⟩
    · intro i hi
      omega
    · intro i _
      rfl
  · rw [if_neg hout] at hr
    unfold WrappedSlice.read_into at hr
    have hremv : s.remaining = s.buf.length - s.offset := rfl
    by_cases hrem : s.remaining = 0
    · rw [if_pos hrem] at hr
      simp only [Prod.mk.injEq] at hr
      obtain ⟨rfl, rfl, rfl⟩ := hr
      refine ⟨by omega, by simp, rfl, by omega, ?_, ?_, fun _ => rfl, ?_⟩
      · intro i hi
        omega
      · intro i _
        rfl
      · intro h0
        exact absurd h0 hout
    · rw [if_neg hrem] at hr
      simp only at hr
      rw [consume_exact s (min s.remaining out.length) (by omega) hmax] at hr
      simp only [Prod.mk.injEq] at hr
      obtain ⟨rfl, rfl, rfl⟩ := hr
      have hA : ((s.buf.drop s.offset).take (min s.remaining out.length)).length
          = min s.remaining out.length := by
        simp only [List.length_take, List.length_drop]
        omega
      refine ⟨by omega, rfl, rfl, by omega, ?_, ?_, ?_, ?_⟩
      · intro i hi
        rw [List.getElem?_append_left (by rw [hA]; exact hi),
          List.getElem?_take_of_lt hi, List.getElem?_drop]
      · intro i hi
        rw [List.getElem?_append_right (by rw [hA]; exact hi), hA,
          List.getElem?_drop, Nat.add_sub_cancel' hi]
      · intro h0
        omega
      · intro h0
        exact absurd h0 hout

/-- Witness for C5: reading 2 bytes of `[10, 20, 30]` from cursor 1. -/

theorem c5_read_contract_witness :
    2 = min ([0, 0] : List Nat).length
        ((⟨1, [10, 20, 30]⟩ : WrappedSlice).buf.length
          - (⟨1, [10, 20, 30]⟩ : WrappedSlice).offset)
    ∧ (⟨3, [10, 20, 30]⟩ : WrappedSlice).offset
      = (⟨1, [10, 20, 30]⟩ : WrappedSlice).offset + 2
    ∧ (⟨3, [10, 20, 30]⟩ : WrappedSlice).buf
      = (⟨1, [10, 20, 30]⟩ : WrappedSlice).buf
    ∧ (⟨1, [10, 20, 30]⟩ : WrappedSlice).offset + 2
      ≤ (⟨1, [10, 20, 30]⟩ : WrappedSlice).buf.length
    ∧ (∀ i, i < 2 →
        ([20, 30] : List Nat)[i]?
          = (⟨1, [10, 20, 30]⟩ : WrappedSlice).buf[(⟨1, [10, 20, 30]⟩ : WrappedSlice).offset + i]?)
    ∧ (∀ i, 2 ≤ i → ([20, 30] : List Nat)[i]? = ([0, 0] : List Nat)[i]?)
    ∧ ((⟨1, [10, 20, 30]⟩ : WrappedSlice).buf.length
          ≤ (⟨1, [10, 20, 30]⟩ : WrappedSlice).offset →
        ((⟨3, [10, 20, 30]⟩ : WrappedSlice), ([20, 30] : List Nat), 2)
          = ((⟨1, [10, 20, 30]⟩ : WrappedSlice), ([0, 0] : List Nat), 0))
    ∧ (([0, 0] : List Nat).length = 0 →
        ((⟨3, [10, 20, 30]⟩ : WrappedSlice), ([20, 30] : List Nat), 2)
          = ((⟨1, [10, 20, 30]⟩ : WrappedSlice), ([0, 0] : List Nat), 0)) :=
  c5_read_contract ⟨1, [10, 20, 30]⟩ [0, 0] (by norm_num) (by norm_num)
    ⟨3, [10, 20, 30]⟩ [20, 30] 2 rfl

/-- C9: for every negative skip amount the skip callback moves the cursor
forward to the end of the source and returns that position; and skip never
moves the cursor backwards, for any argument. -/

theorem c9_skip_negative_to_end (s : WrappedSlice) (n : Int)
    (hinv : s.offset ≤ s.buf.length) (hlen : s.buf.length < 2 ^ 63)
    (hn : -(2 ^ 63) ≤ n) :
    (n < 0 →
      (buf_read_stream_skip_fn s n).1.offset = s.buf.length
      ∧ (buf_read_stream_skip_fn s n).2 = (s.buf.length : Int))
    ∧ s.offset ≤ (buf_read_stream_skip_fn s n).1.offset := by
  have h63 : (2 : Nat) ^ 63 = 9223372036854775808 := by norm_num
  have hMAX : USIZE_MAX = 18446744073709551615 := by norm_num [USIZE_MAX]
  constructor
  · intro hneg
    have e64 : (2 : Int) ^ 64 = 18446744073709551616 := by norm_num
    have e63 : (2 : Int) ^ 63 = 9223372036854775808 := by norm_num
    rw [e63] at hn
    have hmod : n % (2 ^ 64 : Int) = n + 2 ^ 64 := by
      have h1 := @Int.add_mul_emod_self_left n ((2 : Int) ^ 64) 1
      rw [mul_one] at h1
      have h2 : (n + (2 : Int) ^ 64) % (2 ^ 64 : Int) = n + 2 ^ 64 :=
        Int.emod_eq_of_lt (by rw [e64]; omega) (by rw [e64]; omega)
      rw [← h1, h2]
    have hm : 9223372036854775808 ≤ i64ToUsize n := by
      unfold i64ToUsize
      rw [hmod]
      have hpos : (0 : Int) ≤ n + 2 ^ 64 := by rw [e64]; omega
      have hcast : ((n + 2 ^ 64 : Int).toNat : Int) = n + 2 ^ 64 :=
        Int.toNat_of_nonneg hpos
      rw [e64] at hcast
      omega
    have hoff : (buf_read_stream_skip_fn s n).1.offset = s.buf.length := by
      show min s.buf.length (satAdd s.offset (i64ToUsize n)) = s.buf.length
      unfold satAdd
      rw [hMAX]
      omega
    refine ⟨hoff, ?_⟩
    show usizeToI64 (min s.buf.length (satAdd s.offset (i64ToUsize n)))
      = (s.buf.length : Int)
    have : min s.buf.length (satAdd s.offset (i64ToUsize n)) = s.buf.length := by
      unfold satAdd
      rw [hMAX]
      omega
    rw [this]
    unfold usizeToI64
    rw [if_pos hlen]
  · show s.offset ≤ min s.buf.length (satAdd s.offset (i64ToUsize n))
    unfold satAdd
    rw [hMAX]
    omega

/-- Witness for C9: skipping -1 on `[5, 6, 7]` from cursor 1 lands at 3. -/

theorem c9_skip_negative_to_end_witness :
    ((-1 : Int) < 0 →
      (buf_read_stream_skip_fn ⟨1, [5, 6, 7]⟩ (-1)).1.offset
        = (⟨1, [5, 6, 7]⟩ : WrappedSlice).buf.length
      ∧ (buf_read_stream_skip_fn ⟨1, [5, 6, 7]⟩ (-1)).2
        = ((⟨1, [5, 6, 7]⟩ : WrappedSlice).buf.length : Int))
    ∧ (⟨1, [5, 6, 7]⟩ : WrappedSlice).offset
      ≤ (buf_read_stream_skip_fn ⟨1, [5, 6, 7]⟩ (-1)).1.offset :=
  c9_skip_negative_to_end ⟨1, [5, 6, 7]⟩ (-1) (by norm_num) (by norm_num)
    (by norm_num)

/-- C6: `read_header` constructs the owning wrapper from the returned pointer
before inspecting the status code: with a non-null pointer the wrapper is
created even when the status indicates failure (and an error is returned), and
the result is `Ok` exactly when the status is success and the pointer is
non-null. -/

theorem c6_read_header_wraps_first (res : Int) (ptr : Option ForeignImage) :
    ((∃ img, (read_header res ptr).result = .ok img) ↔ (res = 1 ∧ ptr ≠ none))
    ∧ (ptr ≠ none →
        (read_header res ptr).wrapperCreated = true
        ∧ (res ≠ 1 →
            (read_header res ptr).result
              = .error (.CodecError "Failed to read header"))) := by
  rcases ptr with _ | p
  · constructor
    · constructor
      · rintro ⟨img, himg⟩
        simp [read_header, image_new] at himg
      · rintro ⟨_, hne⟩
        exact absurd rfl hne
    · intro hne
      exact absurd rfl hne
  · constructor
    · constructor
      · rintro ⟨img, himg⟩
        simp only [read_header, image_new] at himg
        split_ifs at himg with hres
        exact ⟨hres, by simp⟩
      · rintro ⟨hres, _⟩
        exact ⟨p, by simp [read_header, image_new, hres]⟩
    · intro _
      refine ⟨rfl, ?_⟩
      intro hres
      simp [read_header, image_new, hres]

/-- Witness for C6: status 0 with a non-null pointer still creates the owning
wrapper and returns the codec error. -/

theorem c6_read_header_wraps_first_witness :
    (read_header 0 (some ⟨7⟩)).wrapperCreated = true
    ∧ (read_header 0 (some ⟨7⟩)).result
      = .error (.CodecError "Failed to read header") := by
  have h := (c6_read_header_wraps_first 0 (some ⟨7⟩)).2 (by simp)
  exact ⟨h.1, h.2 (by norm_num)⟩

end Jpeg2k
